import Mathlib

/-!
Shallow embedding of `endpoint/models/endpoint_mixin.py` (class `EndpointMixin`).

Python values flowing through the snippet-evaluation context are modelled by
`PyVal`; the evaluation context (a Python dict mutated in place, since the code
calls `safe_eval(..., nocopy=True)`) is an association list updated in place by
`ctxSet`.  The host framework's restricted evaluator `safe_eval` is a parameter
(`SnippetSem`): it receives the snippet text and the seeded context and either
returns the mutated context or raises (business-rule errors a snippet may raise
via the exposed `exceptions` module are `Except.error`).  String helpers
(`splitlines`, `pyStrip`, `pyStartswith`) mirror the Python `str` methods used
by the source, written as structural recursion over character lists so that
they evaluate by `decide`/`rfl`.
-/

set_option autoImplicit false
set_option maxRecDepth 8192

namespace EndpointMixin

/-- An incoming werkzeug HTTP request (`request.httprequest` in the source):
`method` is always a string, `content_type` may be `None`. -/
structure HttpRequest where
  method : String
  content_type : Option String
deriving DecidableEq, Repr

/-- The framework request wrapper passed to `_handle_request` / `_validate_request`. -/
structure Request where
  httprequest : HttpRequest
deriving DecidableEq, Repr

/-- Python values visible to the embedded code: `None`, booleans, strings,
integers, dicts (association lists), instances of `http.Response`, opaque
handles for the framework objects seeded into the evaluation context, and the
request object itself. -/
inductive PyVal where
  | none
  | bool (b : Bool)
  | str (s : String)
  | int (n : Int)
  | dict (entries : List (String × PyVal))
  | response (status : Int) (body : String)
  | obj (tag : String)
  | req (r : Request)

/-- Python truthiness (`if params:` and friends). -/
def truthy : PyVal → Bool
  | PyVal.none => false
  | PyVal.bool b => b
  | PyVal.str s => s ≠ ""
  | PyVal.int n => n ≠ 0
  | PyVal.dict entries => !entries.isEmpty
  | PyVal.response _ _ => true
  | PyVal.obj _ => true
  | PyVal.req _ => true

/-- Truthiness of an optional string field (Odoo fields are falsy when unset). -/
def optTruthy : Option String → Bool
  | Option.none => false
  | some s => s ≠ ""

/-- The endpoint record: the fields `EndpointMixin` declares plus the fields it
reads from the inherited `endpoint.route.handler` base (`route`, `auth_type`,
`request_method`, `request_content_type`, `name`, `id`). -/
structure Endpoint where
  exec_mode : String
  code_snippet : Option String
  exec_as_user_id : Option Nat
  company_id : Option Nat
  route : String
  auth_type : String
  request_method : Option String
  request_content_type : Option String
  name : String
  id : Nat
deriving Repr

/-- Errors raised by the mixin or flowing through it: Odoo `UserError` /
`ValidationError` (business-rule errors) and the werkzeug HTTP errors it
raises (`MethodNotAllowed`, `UnsupportedMediaType`, `BadRequest`). -/
inductive EndpointError where
  | userError (msg : String)
  | validationError (msg : String)
  | typeError (msg : String)
  | methodNotAllowed
  | unsupportedMediaType
  | badRequest

/-- The snippet evaluation context: a Python dict from names to values. -/
abbrev EvalCtx := List (String × PyVal)

/-- Python `dict.get(key)`: first binding of `key`, or `None`/absent. -/
def ctxGet : EvalCtx → String → Option PyVal
  | [], _ => Option.none
  | (k, v) :: rest, key => if k = key then some v else ctxGet rest key

/-- Python `d[key] = v` on a dict: replace the existing binding in place, or
append a new one (the source evaluates with `nocopy=True`, so the snippet's
assignments land in the very dict the handler reads back). -/
def ctxSet : EvalCtx → String → PyVal → EvalCtx
  | [], key, v => [(key, v)]
  | (k, w) :: rest, key, v =>
      if k = key then (key, v) :: rest else (k, w) :: ctxSet rest key v

/-- Python `dict.setdefault(key, v)`: insert `v` under `key` only when `key`
is absent. -/
def setdefault (d : EvalCtx) (key : String) (v : PyVal) : EvalCtx :=
  match ctxGet d key with
  | some _ => d
  | Option.none => d ++ [(key, v)]

/-- Does `pat` occur at the head of `s` (character lists)? -/
def charsLead : List Char → List Char → Bool
  | [], _ => true
  | _ :: _, [] => false
  | a :: as, b :: bs => a = b && charsLead as bs

/-- Substring test used to state facts about the generated documentation text. -/
def listContains : List Char → List Char → Bool
  | pat, [] => pat.isEmpty
  | pat, c :: rest => charsLead pat (c :: rest) || listContains pat rest

/-- Python `pat in s`. -/
def strContains (s pat : String) : Bool :=
  listContains pat.data s.data

/-- Python `str.startswith(pre)`. -/
def pyStartswith (s pre : String) : Bool :=
  charsLead pre.data s.data

/-- Python `str.strip(chars)`: remove leading and trailing characters drawn
from `chars`.  Note `strip("")` removes nothing (the empty character set) —
this is what line 179 of the source actually calls. -/
def pyStrip (s chars : String) : String :=
  String.mk
    (((s.data.dropWhile (fun c => chars.data.contains c)).reverse.dropWhile
        (fun c => chars.data.contains c)).reverse)

/-- Worker for `splitlines`: accumulates the current line (reversed) and
splits at `\r\n`, `\r` or `\n`; like Python, a trailing line terminator does
not produce a final empty line. -/
def splitlinesGo : List Char → List Char → List String
  | [], cur => if cur.isEmpty then [] else [String.mk cur.reverse]
  | '\r' :: '\n' :: rest, cur => String.mk cur.reverse :: splitlinesGo rest []
  | '\r' :: rest, cur => String.mk cur.reverse :: splitlinesGo rest []
  | '\n' :: rest, cur => String.mk cur.reverse :: splitlinesGo rest []
  | c :: rest, cur => splitlinesGo rest (c :: cur)

/-- Python `str.splitlines()`. -/
def splitlines (s : String) : List String :=
  splitlinesGo s.data []

/-- Source `_code_snippet_valued` (lines 173-181), verbatim semantics:

    snippet = self.code_snippet or ""
    return bool(
        [
            not line.startswith("#")
            for line in (snippet.splitlines())
            if line.strip("")
        ]
    )

`bool(list)` is the non-emptiness of the comprehension's result; the filter is
the truthiness of `line.strip("")` (which strips nothing); the element
`not line.startswith("#")` is computed but never consulted. -/
def code_snippet_valued (rec : Endpoint) : Bool :=
  let snippet := rec.code_snippet.getD ""
  !(((splitlines snippet).filter (fun line => pyStrip line "" ≠ "")).map
      (fun line => !pyStartswith line "#")).isEmpty

/-- Source `_validate_exec__code` (lines 50-54): reject when the snippet is
not valued. -/
def validate_exec__code (rec : Endpoint) : Except EndpointError Unit :=
  if !code_snippet_valued rec then
    Except.error (EndpointError.userError
      "Exec mode is set to `Code`: you must provide a piece of code")
  else
    Except.ok ()

/-- Does the class define a method named `"_validate_exec__" + mode`?  The
class (including its bases) defines exactly one such method, the one for mode
`"code"`; for every other mode `getattr` returns its `lambda x: True` default. -/
def validatorExists (mode : String) : Bool :=
  mode = "code"

/-- Source `_validate_exec_mode` (lines 46-48):
`getattr(self, "_validate_exec__" + self.exec_mode, lambda x: True)()`.
When the validator method exists, `getattr` returns it bound to `self` and the
zero-argument call runs it.  When it does not, the default `lambda x: True` is
returned as-is — it is not a bound method, so the call `validator()` supplies
no argument for `x` and Python raises
`TypeError: <lambda>() missing 1 required positional argument: x`. -/
def validate_exec_mode (rec : Endpoint) : Except EndpointError Unit :=
  if validatorExists rec.exec_mode then
    validate_exec__code rec
  else
    Except.error (EndpointError.typeError
      "<lambda>() missing 1 required positional argument: x")

/-- Source `_default_code_snippet_docs` (lines 62-89): the literal template
shown to snippet authors (indentation as in the source; `_compute_code_snippet_docs`
dedents it). -/
def default_code_snippet_docs : String :=
  "\n        Available vars:\n\n        * env\n        * endpoint\n        * request\n        * datetime\n        * dateutil\n        * time\n        * user\n        * json\n        * Response\n        * werkzeug\n        * exceptions\n        * params\n\n        Must assign a ``result`` variable, with either an instance of ``Response``,\n        or a dict containiny any of the keys:\n\n        * payload\n        * headers\n        * status_code\n\n        which are all optional.\n\n        Use ``log`` function to log messages into ir.logging table.\n        "

/-- Source `_get_code_snippet_eval_context` (lines 91-113): the fixed set of
names exposed to the snippet.  Framework objects and wrapped modules are
opaque handles; the request object itself is seeded under `"request"`. -/
def get_code_snippet_eval_context (rec : Endpoint) (request : Request) : EvalCtx :=
  [("env", PyVal.obj "env"),
   ("user", PyVal.obj "user"),
   ("endpoint", PyVal.obj rec.name),
   ("request", PyVal.req request),
   ("datetime", PyVal.obj "safe_eval.datetime"),
   ("dateutil", PyVal.obj "safe_eval.dateutil"),
   ("time", PyVal.obj "safe_eval.time"),
   ("json", PyVal.obj "safe_eval.json"),
   ("Response", PyVal.obj "http.Response"),
   ("werkzeug", PyVal.obj "werkzeug:NotFound,BadRequest,Unauthorized"),
   ("exceptions", PyVal.obj "exceptions:UserError,ValidationError"),
   ("log", PyVal.obj "log")]

/-- Semantics of the host framework's restricted evaluator on a given snippet
text: `safe_eval(snippet, eval_ctx, mode="exec", nocopy=True)` either returns
the mutated context or raises (e.g. a `UserError` the snippet raised through
the exposed `exceptions` module). -/
abbrev SnippetSem := String → EvalCtx → Except EndpointError EvalCtx

/-- Source `_handle_exec__code` (lines 159-171): return `{}` when the snippet
is not valued; otherwise seed the context with `params`, evaluate the snippet,
and demand that the context now binds `result` to a dict. -/
def handle_exec__code (rec : Endpoint) (ev : SnippetSem) (request : Request)
    (params : PyVal) : Except EndpointError (List (String × PyVal)) :=
  if !code_snippet_valued rec then
    Except.ok []
  else
    let eval_ctx := ctxSet (get_code_snippet_eval_context rec request) "params" params
    let snippet := rec.code_snippet.getD ""
    match ev snippet eval_ctx with
    | Except.error e => Except.error e
    | Except.ok ctx2 =>
      match ctxGet ctx2 "result" with
      | some (PyVal.dict d) => Except.ok d
      | _ => Except.error (EndpointError.userError
          "code_snippet should return a dict into `result` variable.")

/-- Source `_validate_request` (lines 191-201): compare declared method and
content type against the incoming request; each mismatch logs an error line
and raises.  The second component collects the `_logger.error` lines emitted
before the raise. -/
def validate_request (rec : Endpoint) (request : Request) :
    Except EndpointError Unit × List String :=
  if optTruthy rec.request_method
      && !(rec.request_method == some request.httprequest.method) then
    (Except.error EndpointError.methodNotAllowed,
     ["_validate_request: MethodNotAllowed"])
  else if optTruthy rec.request_content_type
      && !(rec.request_content_type == request.httprequest.content_type) then
    (Except.error EndpointError.unsupportedMediaType,
     ["_validate_request: UnsupportedMediaType"])
  else
    (Except.ok (), [])

/-- Does the resolved handler's signature accept a `params` parameter?  The
only handler the class defines is `_handle_exec__code(self, request,
params=None)` — it does. -/
def handlerAcceptsParams (mode : String) : Bool :=
  mode = "code"

/-- The shape of the call `_handle_request` makes to the resolved handler. -/
inductive HandlerCall where
  | withParams (params : PyVal)
  | withoutParams

/-- The call-shape choice of `_handle_request` (source lines 218-222):

    if params:
        res = handler(request, params=params)
    else:
        res = handler(request)

The branch tests the truthiness of the `params` VALUE; it never inspects the
handler. -/
def handle_request_call (_rec : Endpoint) (params : PyVal) : HandlerCall :=
  if truthy params then HandlerCall.withParams params else HandlerCall.withoutParams

/-- Performing the chosen call on the code-mode handler: calling without
`params` hits the Python default `params=None`. -/
def applyHandler (rec : Endpoint) (ev : SnippetSem) (request : Request) :
    HandlerCall → Except EndpointError (List (String × PyVal))
  | HandlerCall.withParams p => handle_exec__code rec ev request p
  | HandlerCall.withoutParams => handle_exec__code rec ev request PyVal.none

/-- Source `_handle_request` (lines 211-226) together with
`_bad_request_exceptions` (lines 228-229) and `_get_handler` (lines 203-209).
`_get_handler` runs before the `try`, so a missing handler's `UserError` is
not translated; inside the `try`, `UserError` and `ValidationError` are caught,
`self._logger.error("_validate_request: BadRequest")` is emitted (a fixed
string), and a werkzeug `BadRequest` is raised from the original exception.
The second component collects the `_logger.error` lines. -/
def handle_request (rec : Endpoint) (ev : SnippetSem) (request : Request)
    (params : PyVal) : Except EndpointError (List (String × PyVal)) × List String :=
  if rec.exec_mode = "code" then
    match applyHandler rec ev request (handle_request_call rec params) with
    | Except.error (EndpointError.userError _) =>
        (Except.error EndpointError.badRequest, ["_validate_request: BadRequest"])
    | Except.error (EndpointError.validationError _) =>
        (Except.error EndpointError.badRequest, ["_validate_request: BadRequest"])
    | r => (r, [])
  else
    (Except.error (EndpointError.userError
        ("Missing handler for exec mode " ++ rec.exec_mode)), [])

/-- Source `copy_data` (lines 238-244): the override builds the defaults dict
passed on to `super().copy_data` — `dict(default or {})` followed by
`default.setdefault("route", f"{self.route}/COPY_FIXME")`.  The host
framework's `copy_data` applies each entry of this dict over the copied
values, so the `"route"` entry here is the route of the copy. -/
def copy_data (rec : Endpoint) (default : Option EvalCtx) : EvalCtx :=
  let d := default.getD []
  setdefault d "route" (PyVal.str (rec.route ++ "/COPY_FIXME"))

/-! Concrete sample records, requests and evaluator semantics used by the
witnesses and counterexamples below. -/

/-- A base endpoint record in code mode with no snippet and no declared
request method or content type. -/
def baseRec : Endpoint :=
  { exec_mode := "code", code_snippet := Option.none,
    exec_as_user_id := Option.none, company_id := Option.none,
    route := "/demo", auth_type := "user_endpoint",
    request_method := Option.none, request_content_type := Option.none,
    name := "demo endpoint", id := 1 }

/-- A GET request with no content type. -/
def reqX : Request := { httprequest := { method := "GET", content_type := Option.none } }

/-- A POST request with content type text/plain. -/
def reqPost : Request :=
  { httprequest := { method := "POST", content_type := some "text/plain" } }

/-- Record whose snippet is a single comment line. -/
def recComment : Endpoint := { baseRec with code_snippet := some "# just a comment" }

/-- Record whose snippet is a single line of spaces. -/
def recSpaces : Endpoint := { baseRec with code_snippet := some "   " }

/-- Record whose snippet is the non-empty string consisting of one newline. -/
def recNL : Endpoint := { baseRec with code_snippet := some "\n" }

/-- Record with an exec mode for which no validator method exists. -/
def recDemo : Endpoint := { baseRec with exec_mode := "demo" }

/-- Record whose snippet raises a business-rule error when evaluated. -/
def recCode : Endpoint :=
  { baseRec with code_snippet := some "raise exceptions.UserError(\"secret business reason\")" }

/-- Record whose snippet binds `result` to a dict. -/
def recC1 : Endpoint :=
  { baseRec with code_snippet := some "result = \x7b\"payload\": \"ok\"\x7d" }

/-- Record whose snippet binds `result` to a `Response` instance. -/
def recResp : Endpoint := { baseRec with code_snippet := some "result = Response(\"ok\")" }

/-- Record declaring request method GET. -/
def recGet : Endpoint := { baseRec with request_method := some "GET" }

/-- Record declaring request content type application/json. -/
def recJson : Endpoint :=
  { baseRec with request_content_type := some "application/json" }

/-- Evaluator semantics of a snippet that is a no-op (binds nothing). -/
def evNoop : SnippetSem := fun _ ctx => Except.ok ctx

/-- Evaluator semantics of a snippet assigning
`result = {"payload": "ok"}` (a dict). -/
def evSetPayload : SnippetSem :=
  fun _ ctx => Except.ok (ctxSet ctx "result" (PyVal.dict [("payload", PyVal.str "ok")]))

/-- Evaluator semantics of a snippet assigning `result = Response("ok")`. -/
def evSetResponse : SnippetSem :=
  fun _ ctx => Except.ok (ctxSet ctx "result" (PyVal.response 200 "ok"))

/-- Evaluator semantics of a snippet raising
`exceptions.UserError("secret business reason")`. -/
def evRaise : SnippetSem :=
  fun _ _ => Except.error (EndpointError.userError "secret business reason")

/-- Evaluator semantics that fails loudly on any invocation — used to show a
code path never reaches the evaluator. -/
def evPanic : SnippetSem :=
  fun _ _ => Except.error (EndpointError.userError "evaluator invoked")

/-- The seeded evaluation context of `recNL` under request `reqX`. -/
def ctxNL : EvalCtx :=
  ctxSet (get_code_snippet_eval_context recNL reqX) "params" PyVal.none

/-- The evaluated context of `recC1` under `evSetPayload`. -/
def ctxC1 : EvalCtx :=
  ctxSet (ctxSet (get_code_snippet_eval_context recC1 reqX) "params" PyVal.none)
    "result" (PyVal.dict [("payload", PyVal.str "ok")])

/-- The evaluated context of `recResp` under `evSetResponse`. -/
def ctxResp : EvalCtx :=
  ctxSet (ctxSet (get_code_snippet_eval_context recResp reqX) "params" PyVal.none)
    "result" (PyVal.response 200 "ok")

/-! Claim theorems. -/

/-- C2 (code bug): a code-mode record whose snippet is the single comment
line "# just a comment" (or a blank line of spaces) passes validation and
saving succeeds, although the spec requires a validation error for
blank/comment-only snippets.  Cause: in `_code_snippet_valued` the filter
`line.strip("")` strips nothing (empty character set, so any non-empty line
passes, comments and all-space lines included), and the comprehension
elements `not line.startswith("#")` are discarded by `bool([...])`, which
only tests list non-emptiness. -/
theorem comment_only_snippet_accepted :
    code_snippet_valued recComment = true ∧
    validate_exec_mode recComment = Except.ok () ∧
    code_snippet_valued recSpaces = true ∧
    validate_exec_mode recSpaces = Except.ok () :=
  ⟨rfl, rfl, rfl, rfl⟩

/-- C5 (code bug): for an exec mode with no mode-specific validator method,
running the configuration validator is NOT a no-op.  `getattr`'s default
`lambda x: True` is meant as a do-nothing stand-in for the bound validator
methods, but it is returned unbound, so the zero-argument call `validator()`
leaves its parameter `x` unfilled and raises a `TypeError` instead of
completing silently.  Evaluated at the failing input, a record whose exec
mode "demo" has no validator method. -/
theorem validate_exec_mode_fallback_type_error :
    validatorExists recDemo.exec_mode = false ∧
    validate_exec_mode recDemo
      = Except.error (EndpointError.typeError
          "<lambda>() missing 1 required positional argument: x") :=
  ⟨rfl, rfl⟩

/-- C6: when the code snippet is empty, the code-mode handler returns the
empty dict and its result does not depend on the evaluator in any way — the
guard returns before `safe_eval` is reached, so the restricted evaluator is
never invoked. -/
theorem handle_code_empty_snippet (rec : Endpoint) (request : Request)
    (params : PyVal) (h : rec.code_snippet.getD "" = "") :
    ∀ ev : SnippetSem, handle_exec__code rec ev request params = Except.ok [] := by
  intro ev
  have hval : code_snippet_valued rec = false := by
    unfold code_snippet_valued
    rw [h]
    rfl
  unfold handle_exec__code
  rw [hval]
  rfl

/-- C6 witness: an endpoint with no snippet returns the empty dict even under
an evaluator that fails on any invocation. -/
theorem handle_code_empty_snippet_witness :
    baseRec.code_snippet.getD "" = "" ∧
    handle_exec__code baseRec evPanic reqX PyVal.none = Except.ok [] :=
  ⟨rfl, handle_code_empty_snippet baseRec reqX PyVal.none rfl evPanic⟩

/-- C8: duplication with no caller-supplied defaults produces copy data whose
route is the original route with the fixed suffix "/COPY_FIXME" appended; in
particular a record with route "/foo" is copied with route "/foo/COPY_FIXME". -/
theorem copy_data_route_suffix (rec : Endpoint) :
    ctxGet (copy_data rec Option.none) "route"
      = some (PyVal.str (rec.route ++ "/COPY_FIXME")) ∧
    ctxGet (copy_data { rec with route := "/foo" } Option.none) "route"
      = some (PyVal.str "/foo/COPY_FIXME") := by
  constructor
  · simp [copy_data, setdefault, ctxGet]
  · simp [copy_data, setdefault, ctxGet]

/-- C9: when the caller-supplied defaults already contain a "route" entry,
`copy_data` leaves that route unchanged — `setdefault` inserts the
"/COPY_FIXME" route only when the key is absent. -/
theorem copy_data_route_preserved (rec : Endpoint) (d : EvalCtx) (r : PyVal)
    (h : ctxGet d "route" = some r) :
    ctxGet (copy_data rec (some d)) "route" = some r := by
  simp [copy_data, setdefault, h]

/-- C9 witness: defaults carrying route "/custom" survive duplication
unchanged. -/
theorem copy_data_route_preserved_witness :
    ctxGet (copy_data baseRec (some [("route", PyVal.str "/custom")])) "route"
      = some (PyVal.str "/custom") :=
  copy_data_route_preserved baseRec [("route", PyVal.str "/custom")]
    (PyVal.str "/custom") rfl

/-- C1 counterexample: the snippet "\n" is a non-empty string whose
evaluation is a no-op (it binds nothing, in particular no `result`), yet the
code-mode handler returns `Except.ok []` and raises no error — the handler's
guard tests `_code_snippet_valued` (existence of a non-empty line), not
string non-emptiness, so for this non-empty snippet the evaluator is skipped
and the claimed "raises iff `result` is absent or not a mapping" fails. -/
theorem handle_code_nonempty_counterexample :
    recNL.code_snippet = some "\n" ∧ ("\n" : String) ≠ "" ∧
    evNoop "\n" ctxNL = Except.ok ctxNL ∧
    ctxGet ctxNL "result" = Option.none ∧
    handle_exec__code recNL evNoop reqX PyVal.none = Except.ok [] :=
  ⟨rfl, by decide, rfl, rfl, rfl⟩

/-- C1 (amended): in code mode, when the snippet has at least one non-empty
line (the guard `_code_snippet_valued`) and the evaluator returns a context
`ctx2`, the handler returns exactly the dict that the evaluated context binds
to `result`, and it raises the configuration `UserError` exactly when that
`result` binding is absent or not a dict. -/
theorem handle_code_result_contract (rec : Endpoint) (ev : SnippetSem)
    (request : Request) (params : PyVal) (ctx2 : EvalCtx)
    (hval : code_snippet_valued rec = true)
    (hev : ev (rec.code_snippet.getD "")
        (ctxSet (get_code_snippet_eval_context rec request) "params" params)
      = Except.ok ctx2) :
    (∀ d, handle_exec__code rec ev request params = Except.ok d ↔
        ctxGet ctx2 "result" = some (PyVal.dict d)) ∧
    ((∃ m, handle_exec__code rec ev request params
        = Except.error (EndpointError.userError m)) ↔
      ∀ d, ctxGet ctx2 "result" ≠ some (PyVal.dict d)) := by
  unfold handle_exec__code
  rw [hval]
  simp only [Bool.not_true, Bool.false_eq_true, if_false]
  rw [hev]
  rcases hres : ctxGet ctx2 "result" with _ | v
  · constructor
    · intro d
      simp [hres]
    · simp [hres]
  · cases v <;> simp [hres]

/-- C1 witness: a snippet binding `result` to the dict with payload "ok"
yields exactly that dict. -/
theorem handle_code_result_contract_witness :
    handle_exec__code recC1 evSetPayload reqX PyVal.none
      = Except.ok [("payload", PyVal.str "ok")] :=
  ((handle_code_result_contract recC1 evSetPayload reqX PyVal.none ctxC1
      rfl rfl).1 [("payload", PyVal.str "ok")]).mpr rfl

/-- C3 counterexample: in code mode the resolved handler,
`_handle_exec__code(self, request, params=None)`, does accept a `params`
parameter, yet with `params = None` the dispatcher calls it without the
params argument — the omission is decided by the truthiness of the `params`
value (`if params:`), not by reflection on the handler's signature. -/
theorem params_omission_counterexample :
    handlerAcceptsParams recCode.exec_mode = true ∧
    handle_request_call recCode PyVal.none = HandlerCall.withoutParams :=
  ⟨rfl, rfl⟩

/-- C3 (amended): the dispatcher omits the params argument exactly when the
supplied `params` value is falsy; when it is truthy the value is passed
through unchanged; and the choice is independent of the record (hence of the
resolved handler's signature — no reflection takes place). -/
theorem params_omission_by_value (rec : Endpoint) (params : PyVal) :
    (handle_request_call rec params = HandlerCall.withoutParams ↔
      truthy params = false) ∧
    (truthy params = true →
      handle_request_call rec params = HandlerCall.withParams params) ∧
    ∀ rec' : Endpoint, handle_request_call rec params = handle_request_call rec' params := by
  unfold handle_request_call
  cases htruthy : truthy params <;> simp [htruthy]

/-- C3 witness: a truthy params dict is passed through to the handler. -/
theorem params_omission_by_value_witness :
    handle_request_call recCode (PyVal.dict [("a", PyVal.int 1)])
      = HandlerCall.withParams (PyVal.dict [("a", PyVal.int 1)]) :=
  (params_omission_by_value recCode (PyVal.dict [("a", PyVal.int 1)])).2.1 rfl

/-- C4 counterexample: with a snippet raising
`UserError("secret business reason")`, the caller receives the generic
BadRequest, but the only log line written before the translation is the fixed
marker "_validate_request: BadRequest" — the specific reason (the original
error message) appears nowhere in the server log, contrary to the claim. -/
theorem handle_request_log_counterexample :
    handle_request recCode evRaise reqX PyVal.none
      = (Except.error EndpointError.badRequest, ["_validate_request: BadRequest"]) ∧
    ((handle_request recCode evRaise reqX PyVal.none).2.all
        (fun line => !strContains line "secret business reason")) = true :=
  ⟨rfl, rfl⟩

/-- C4 (amended): when the handler raises a recognized business-rule error
(`UserError` or `ValidationError`), the caller receives the generic
BadRequest, and before translating the module writes exactly one server-side
log line — the fixed marker "_validate_request: BadRequest", which does not
carry the original error message (the original exception survives only as the
BadRequest's cause, `raise ... from orig_exec`). -/
theorem handle_request_bad_request_translation (rec : Endpoint) (ev : SnippetSem)
    (request : Request) (params : PyVal) (m : String)
    (hmode : rec.exec_mode = "code")
    (h : applyHandler rec ev request (handle_request_call rec params)
          = Except.error (EndpointError.userError m)
        ∨ applyHandler rec ev request (handle_request_call rec params)
          = Except.error (EndpointError.validationError m)) :
    handle_request rec ev request params
      = (Except.error EndpointError.badRequest, ["_validate_request: BadRequest"]) := by
  rcases h with h | h <;> simp [handle_request, hmode, h]

/-- C4 witness: the business-rule error raised by `recCode`'s snippet is
translated into the generic BadRequest with the fixed log marker. -/
theorem handle_request_bad_request_translation_witness :
    handle_request recCode evRaise reqX PyVal.none
      = (Except.error EndpointError.badRequest, ["_validate_request: BadRequest"]) :=
  handle_request_bad_request_translation recCode evRaise reqX PyVal.none
    "secret business reason" rfl (Or.inl rfl)

/-- C7: a declared-method mismatch raises MethodNotAllowed with its log line;
when the method check passes (undeclared or matching), a declared-content-type
mismatch raises UnsupportedMediaType with its log line; with neither
declared, request validation raises nothing and logs nothing.  (The
controller runs `_validate_request` before dispatching to any handler.) -/
theorem validate_request_contract (rec : Endpoint) (request : Request) :
    (optTruthy rec.request_method = true →
      (rec.request_method == some request.httprequest.method) = false →
      validate_request rec request
        = (Except.error EndpointError.methodNotAllowed,
           ["_validate_request: MethodNotAllowed"])) ∧
    ((optTruthy rec.request_method = false ∨
        (rec.request_method == some request.httprequest.method) = true) →
      optTruthy rec.request_content_type = true →
      (rec.request_content_type == request.httprequest.content_type) = false →
      validate_request rec request
        = (Except.error EndpointError.unsupportedMediaType,
           ["_validate_request: UnsupportedMediaType"])) ∧
    (optTruthy rec.request_method = false →
      optTruthy rec.request_content_type = false →
      validate_request rec request = (Except.ok (), [])) := by
  refine ⟨?_, ?_, ?_⟩
  · intro h1 h2
    simp [validate_request, h1, h2]
  · rintro (h0 | h0) h1 h2 <;> simp [validate_request, h0, h1, h2]
  · intro h1 h2
    simp [validate_request, h1, h2]

/-- C7 witness: a POST against a GET-only endpoint is rejected as
MethodNotAllowed; a text/plain POST against a JSON-only endpoint is rejected
as UnsupportedMediaType; an endpoint declaring neither accepts the request
silently. -/
theorem validate_request_contract_witness :
    validate_request recGet reqPost
      = (Except.error EndpointError.methodNotAllowed,
         ["_validate_request: MethodNotAllowed"]) ∧
    validate_request recJson reqPost
      = (Except.error EndpointError.unsupportedMediaType,
         ["_validate_request: UnsupportedMediaType"]) ∧
    validate_request baseRec reqPost = (Except.ok (), []) :=
  ⟨(validate_request_contract recGet reqPost).1 rfl rfl,
   (validate_request_contract recJson reqPost).2.1 (Or.inl rfl) rfl rfl,
   (validate_request_contract baseRec reqPost).2.2 rfl rfl⟩

/-- C10: the generated `code_snippet_docs` text tells snippet authors that
binding `result` to "either an instance of ``Response``, or a dict" is
acceptable, yet when the evaluated context binds `result` to a `Response`
instance the code-mode handler raises the user-facing configuration error:
only a dict is accepted. -/
theorem handle_code_rejects_response_result (rec : Endpoint) (ev : SnippetSem)
    (request : Request) (params : PyVal) (ctx2 : EvalCtx)
    (status : Int) (body : String)
    (hval : code_snippet_valued rec = true)
    (hev : ev (rec.code_snippet.getD "")
        (ctxSet (get_code_snippet_eval_context rec request) "params" params)
      = Except.ok ctx2)
    (hres : ctxGet ctx2 "result" = some (PyVal.response status body)) :
    handle_exec__code rec ev request params
      = Except.error (EndpointError.userError
          "code_snippet should return a dict into `result` variable.") ∧
    strContains default_code_snippet_docs "either an instance of ``Response``" = true := by
  constructor
  · unfold handle_exec__code
    rw [hval]
    simp only [Bool.not_true, Bool.false_eq_true, if_false]
    rw [hev]
    simp [hres]
  · decide

/-- C10 witness: a snippet assigning `result = Response("ok")` makes the
handler fail with the configuration error despite the docs advertising
`Response` results. -/
theorem handle_code_rejects_response_result_witness :
    handle_exec__code recResp evSetResponse reqX PyVal.none
      = Except.error (EndpointError.userError
          "code_snippet should return a dict into `result` variable.") :=
  (handle_code_rejects_response_result recResp evSetResponse reqX PyVal.none
      ctxResp 200 "ok" rfl rfl rfl).1

end EndpointMixin
